import Mathlib

/-!
Verification of `src/appendlengthtoCSV.py` (`ExampleProcessingAlgorithm.processAlgorithm`).

The algorithm reads four vector line layers, sums each layer's per-feature
geodesic lengths (ellipsoid GRS80, meters), converts each sum to kilometers,
rounds with Python's built-in `round`, and appends two summary rows to a CSV
file, writing a header first when the file position is 0 after opening in
append mode.

The embedding is parametric in the feature/geometry type `G` and in the host
measurement function `measure : G → ℚ` (the value of
`distance_measure.measureLength(feature.geometry())`).  A layer, once
resolved, is the list of its features in iteration order.  Observable side
effects (progress messages, file open, bytes written) are recorded as an
event trace; the output file is modelled as its string content.
-/

namespace AppendLengthToCSV

/-- Python's built-in `round` on an exact value: round half to even
(banker's rounding), returning an integer.  Used by the source at
`round(distance_measure.convertLengthMeasurement(sumlength, ...))`. -/
def pyRound (q : ℚ) : ℤ :=
  if q - (⌊q⌋ : ℚ) < 1 / 2 then ⌊q⌋
  else if (1 : ℚ) / 2 < q - (⌊q⌋ : ℚ) then ⌊q⌋ + 1
  else if ⌊q⌋ % 2 = 0 then ⌊q⌋ else ⌊q⌋ + 1

/-- `distance_measure.convertLengthMeasurement(x, QgsUnitTypes.DistanceKilometers)`:
with an ellipsoid set, `lengthUnits()` is meters, so the conversion to
kilometers divides by 1000. -/
def convertToKm (x : ℚ) : ℚ := x / 1000

/-- `csv.writer` with default dialect (QUOTE_MINIMAL): a field is quoted iff
it contains the delimiter, the quote character, or a line break. -/
def csvNeedsQuoting (s : String) : Bool :=
  s.any fun c => c = ',' || c = '"' || c = '\n' || c = '\r'

/-- Double every quote character inside a quoted field. -/
def csvEscape (s : String) : String :=
  s.foldl (fun acc c => if c = '"' then acc ++ "\"\"" else acc.push c) ""

/-- Serialize one field under the default csv dialect. -/
def csvField (s : String) : String :=
  if csvNeedsQuoting s then "\"" ++ csvEscape s ++ "\"" else s

/-- Serialize one row: fields joined by the comma delimiter, terminated by
the default `\r\n` line terminator of `csv.writer`. -/
def csvRow (fields : List String) : String :=
  String.intercalate "," (fields.map csvField) ++ "\r\n"

/-- `thewriter.writerows(rows_to_write)`: concatenation of the serialized rows. -/
def csvRows (rows : List (List String)) : String :=
  String.join (rows.map csvRow)

/-- Observable side effects of one invocation, in order. -/
inductive Event (G : Type) where
  /-- `feedback.pushInfo` with a fixed message. -/
  | pushInfo (msg : String)
  /-- one call `distance_measure.measureLength(feature.geometry())`. -/
  | measureLength (g : G)
  /-- `feedback.pushInfo` reporting a layer's raw summed length. -/
  | pushInfoSum (layerName : String) (rawSum : ℚ)
  /-- `dest_path.open("a")`. -/
  | openAppend (path : String)
  /-- the bytes written through the csv writer. -/
  | writeContent (data : String)
  deriving DecidableEq

/-- The four resolved feature sources, in the insertion order of the
`sources` dict; `none` models `parameterAsSource` returning null. -/
structure Sources (G : Type) where
  total_added : Option (List G)
  total_modified : Option (List G)
  kaart_added : Option (List G)
  kaart_modified : Option (List G)

/-- `sum(distance_measure.measureLength(feature.geometry()) for feature in layer.getFeatures())`. -/
def layerSum {G : Type} (measure : G → ℚ) (layer : List G) : ℚ :=
  (layer.map measure).sum

/-- `round(distance_measure.convertLengthMeasurement(sumlength, QgsUnitTypes.DistanceKilometers))`. -/
def layerDistance {G : Type} (measure : G → ℚ) (layer : List G) : ℤ :=
  pyRound (convertToKm (layerSum measure layer))

/-- Events of one iteration of the aggregation loop: one measurement per
feature, then the progress message with the raw sum. -/
def layerEvents {G : Type} (measure : G → ℚ) (name : String) (layer : List G) :
    List (Event G) :=
  layer.map Event.measureLength ++ [Event.pushInfoSum name (layerSum measure layer)]

/-- The header row written when the file position is 0. -/
def headerRow : List String := ["Country", "Data Change", "Kaart", "Total"]

/-- The two data rows, in the field order of the source. -/
def dataRows (country : String) (dta dtm dka dkm : ℤ) : List (List String) :=
  [[country, "Km of road added", toString dka, toString dta],
   [country, "Km of road edited or modified", toString dkm, toString dtm]]

/-- `rows_to_write`: header iff `f.tell()` is 0 after opening in append
mode (i.e. the existing content is empty), then always the two data rows. -/
def rowsToWrite (tellPos : ℕ) (country : String) (dta dtm dka dkm : ℤ) :
    List (List String) :=
  (if tellPos = 0 then [headerRow] else []) ++ dataRows country dta dtm dka dkm

/-- How one invocation terminates. -/
inductive RunResult where
  /-- normal return of `{self.OUTPUT: str(dest_path)}`, carrying the path. -/
  | ok (path : String)
  /-- an uncaught Python `AttributeError` for a missing attribute.  The
  validation loop executes `self.invalidSourceError(parameters, self.INPUT)`,
  but the class defines no attribute `INPUT` (only `TOTAL_ADDED`,
  `TOTAL_MODIFIED`, `KAART_ADDED`, `KAART_MODIFIED`, `COUNTRY_NAME`,
  `OUTPUT`), so evaluating the argument raises `AttributeError` before any
  `QgsProcessingException` is constructed. -/
  | pythonAttributeError (missingAttr : String)
  deriving DecidableEq

/-- Everything observable about one invocation: the ordered event trace,
the final content of the output file, and the termination result. -/
structure RunOutput (G : Type) where
  events : List (Event G)
  fileContent : String
  result : RunResult
  deriving DecidableEq

/-- Shallow embedding of `ExampleProcessingAlgorithm.processAlgorithm`
(src/appendlengthtoCSV.py lines 154-232): push the unit message, validate
the four sources (any null one aborts with the `AttributeError` of the
missing `self.INPUT`, before any measurement or file access), then sum,
log, convert and round per layer in dict order, and append the rows to the
file, with a header iff the file was empty.  `init` is the prior content of
the output file (`f.tell()` after `open("a")` equals its length). -/
def processAlgorithm {G : Type} (measure : G → ℚ) (src : Sources G)
    (country : String) (destPath : String) (init : String) : RunOutput G :=
  let pre : List (Event G) := [Event.pushInfo "Length units are meters"]
  match src.total_added, src.total_modified, src.kaart_added, src.kaart_modified with
  | some ta, some tm, some ka, some km =>
      let dta := layerDistance measure ta
      let dtm := layerDistance measure tm
      let dka := layerDistance measure ka
      let dkm := layerDistance measure km
      let data := csvRows (rowsToWrite init.length country dta dtm dka dkm)
      { events := pre ++ layerEvents measure "total_added" ta
          ++ layerEvents measure "total_modified" tm
          ++ layerEvents measure "kaart_added" ka
          ++ layerEvents measure "kaart_modified" km
          ++ [Event.openAppend destPath, Event.writeContent data]
        fileContent := init ++ data
        result := RunResult.ok destPath }
  | _, _, _, _ =>
      { events := pre
        fileContent := init
        result := RunResult.pythonAttributeError "INPUT" }

/-- An event that performs a length measurement or touches the output file. -/
def Event.isMeasureOrFile {G : Type} : Event G → Bool
  | Event.measureLength _ => true
  | Event.openAppend _ => true
  | Event.writeContent _ => true
  | _ => false

/-- Extract a per-layer progress message (layer name, raw sum) from an event. -/
def Event.sumMsg {G : Type} : Event G → Option (String × ℚ)
  | Event.pushInfoSum n s => some (n, s)
  | _ => none

theorem sumMsg_measureEvents {G : Type} (l : List G) :
    List.filterMap (Event.sumMsg ∘ Event.measureLength) l = [] := by
  induction l with
  | nil => rfl
  | cons x xs ih => simp [List.filterMap_cons, Event.sumMsg, Function.comp, ih]

theorem string_length_zero {s : String} (h : s.length = 0) : s = "" := by
  cases s with
  | mk data =>
      cases data with
      | nil => rfl
      | cons c cs => simp [String.length] at h

/-- Claim C1: if any of the four input sources resolves to null, the run
aborts with a fatal error, its event trace contains no length measurement
and no file open or write, and the output file content is unchanged. -/
theorem sourceFailureStopsEarly {G : Type} (measure : G → ℚ) (src : Sources G)
    (country destPath init : String)
    (h : src.total_added = none ∨ src.total_modified = none ∨
         src.kaart_added = none ∨ src.kaart_modified = none) :
    (processAlgorithm measure src country destPath init).result
        = RunResult.pythonAttributeError "INPUT"
    ∧ (∀ e ∈ (processAlgorithm measure src country destPath init).events,
        e.isMeasureOrFile = false)
    ∧ (processAlgorithm measure src country destPath init).fileContent = init := by
  obtain ⟨a, b, c, d⟩ := src
  rcases a with _ | ta <;> rcases b with _ | tm <;> rcases c with _ | ka <;>
    rcases d with _ | km <;>
    simp_all [processAlgorithm, Event.isMeasureOrFile]

theorem sourceFailureStopsEarlyWitness :
    (processAlgorithm (fun _ : Unit => (0 : ℚ))
        ⟨none, some [], some [], some []⟩ "France" "out.csv" "prior").result
        = RunResult.pythonAttributeError "INPUT"
    ∧ (∀ e ∈ (processAlgorithm (fun _ : Unit => (0 : ℚ))
        ⟨none, some [], some [], some []⟩ "France" "out.csv" "prior").events,
        e.isMeasureOrFile = false)
    ∧ (processAlgorithm (fun _ : Unit => (0 : ℚ))
        ⟨none, some [], some [], some []⟩ "France" "out.csv" "prior").fileContent
        = "prior" :=
  sourceFailureStopsEarly (fun _ : Unit => (0 : ℚ))
    ⟨none, some [], some [], some []⟩ "France" "out.csv" "prior" (Or.inl rfl)

/-- Claim C2 (code bug): at an invocation whose first source is null, the
error raised is the Python `AttributeError` for the missing attribute
`INPUT`, not a `QgsProcessingException` carrying the `invalidSourceError`
text — `self.INPUT` is evaluated before the exception is constructed and
the class has no such attribute. -/
theorem nullSourceRaisesAttributeError :
    (processAlgorithm (fun _ : Unit => (0 : ℚ))
        ⟨none, some [], some [], some []⟩ "France" "out.csv" "").result
      = RunResult.pythonAttributeError "INPUT" := rfl

/-- Claim C3: the per-layer distance written to the CSV equals
`round(convert_to_km(sum of the per-feature measured lengths))` (with the
source's `round`, Python's round-half-to-even), and an empty layer yields
exactly 0. -/
theorem perLayerDistanceFormula {G : Type} (measure : G → ℚ)
    (ta tm ka km : List G) (country destPath init : String) :
    (processAlgorithm measure ⟨some ta, some tm, some ka, some km⟩
        country destPath init).fileContent
      = init ++ csvRows (rowsToWrite init.length country
          (pyRound (convertToKm ((ta.map measure).sum)))
          (pyRound (convertToKm ((tm.map measure).sum)))
          (pyRound (convertToKm ((ka.map measure).sum)))
          (pyRound (convertToKm ((km.map measure).sum))))
    ∧ layerDistance measure ([] : List G) = 0 := by
  refine ⟨rfl, ?_⟩
  show pyRound (convertToKm (([] : List ℚ).sum)) = 0
  norm_num [pyRound, convertToKm]

/-- Claim C4: the aggregation loop processes the layers in the fixed dict
order total_added, total_modified, kaart_added, kaart_modified, pushing one
progress message per layer that reports that layer's raw (unconverted)
summed length. -/
theorem layerOrderAndProgress {G : Type} (measure : G → ℚ)
    (ta tm ka km : List G) (country destPath init : String) :
    ((processAlgorithm measure ⟨some ta, some tm, some ka, some km⟩
        country destPath init).events.filterMap Event.sumMsg)
      = [("total_added", (ta.map measure).sum),
         ("total_modified", (tm.map measure).sum),
         ("kaart_added", (ka.map measure).sum),
         ("kaart_modified", (km.map measure).sum)] := by
  simp [processAlgorithm, layerEvents, List.filterMap_append, List.filterMap_cons,
    List.filterMap_map, sumMsg_measureEvents, Event.sumMsg, layerSum]

/-- Claim C5: on a fresh or nonexistent output path (empty prior content),
one invocation writes exactly the header row followed by the two data rows,
in the fixed field order of the source. -/
theorem freshFileThreeRows {G : Type} (measure : G → ℚ)
    (ta tm ka km : List G) (country destPath : String) :
    (processAlgorithm measure ⟨some ta, some tm, some ka, some km⟩
        country destPath "").fileContent
      = csvRows [["Country", "Data Change", "Kaart", "Total"],
          [country, "Km of road added", toString (layerDistance measure ka),
            toString (layerDistance measure ta)],
          [country, "Km of road edited or modified",
            toString (layerDistance measure km),
            toString (layerDistance measure tm)]] := rfl

/-- Claim C6: on an existing non-empty output file, one invocation appends
exactly the two data rows with no header, and the prior content stays as an
unchanged prefix (append only, never truncated). -/
theorem existingFileAppendsTwoRows {G : Type} (measure : G → ℚ)
    (ta tm ka km : List G) (country destPath init : String) (h : init ≠ "") :
    (processAlgorithm measure ⟨some ta, some tm, some ka, some km⟩
        country destPath init).fileContent
      = init ++ csvRows (dataRows country (layerDistance measure ta)
          (layerDistance measure tm) (layerDistance measure ka)
          (layerDistance measure km)) := by
  have hlen : init.length ≠ 0 := fun h0 => h (string_length_zero h0)
  simp [processAlgorithm, rowsToWrite, hlen]

theorem existingFileAppendsTwoRowsWitness :
    (processAlgorithm (fun _ : Unit => (0 : ℚ))
        ⟨some [], some [], some [], some []⟩ "France" "out.csv" "x").fileContent
      = "x" ++ csvRows (dataRows "France"
          (layerDistance (fun _ : Unit => (0 : ℚ)) [])
          (layerDistance (fun _ : Unit => (0 : ℚ)) [])
          (layerDistance (fun _ : Unit => (0 : ℚ)) [])
          (layerDistance (fun _ : Unit => (0 : ℚ)) [])) :=
  existingFileAppendsTwoRows (fun _ : Unit => (0 : ℚ)) [] [] [] []
    "France" "out.csv" "x" (by decide)

/-- Claim C7: whenever the write position after opening in append mode is
zero (in particular for an existing zero-byte file, whatever its history),
the invocation writes the header row followed by the two data rows. -/
theorem emptyFileWritesHeader {G : Type} (measure : G → ℚ)
    (ta tm ka km : List G) (country destPath init : String)
    (h : init.length = 0) :
    (processAlgorithm measure ⟨some ta, some tm, some ka, some km⟩
        country destPath init).fileContent
      = init ++ csvRows (headerRow :: dataRows country
          (layerDistance measure ta) (layerDistance measure tm)
          (layerDistance measure ka) (layerDistance measure km)) := by
  simp [processAlgorithm, rowsToWrite, h]

theorem emptyFileWritesHeaderWitness :
    (processAlgorithm (fun _ : Unit => (0 : ℚ))
        ⟨some [], some [], some [], some []⟩ "France" "out.csv" "").fileContent
      = "" ++ csvRows (headerRow :: dataRows "France"
          (layerDistance (fun _ : Unit => (0 : ℚ)) [])
          (layerDistance (fun _ : Unit => (0 : ℚ)) [])
          (layerDistance (fun _ : Unit => (0 : ℚ)) [])
          (layerDistance (fun _ : Unit => (0 : ℚ)) [])) :=
  emptyFileWritesHeader (fun _ : Unit => (0 : ℚ)) [] [] [] []
    "France" "out.csv" "" rfl

/-- Claim C8: a raw sum of 12345.6 m converts to 12.3456 km and rounds to
12 before being written, and the integer 12 appears verbatim as the Kaart
field of the corresponding data row of the written content. -/
theorem convertRoundVerbatim {G : Type} (measure : G → ℚ)
    (ta tm ka km : List G) (country destPath init : String)
    (h : layerSum measure ka = 123456 / 10) :
    convertToKm (layerSum measure ka) = 123456 / 10000
    ∧ layerDistance measure ka = 12
    ∧ dataRows country (layerDistance measure ta) (layerDistance measure tm)
        (layerDistance measure ka) (layerDistance measure km)
      = [[country, "Km of road added", "12", toString (layerDistance measure ta)],
         [country, "Km of road edited or modified",
           toString (layerDistance measure km), toString (layerDistance measure tm)]]
    ∧ (processAlgorithm measure ⟨some ta, some tm, some ka, some km⟩
        country destPath init).fileContent
      = init ++ csvRows (rowsToWrite init.length country
          (layerDistance measure ta) (layerDistance measure tm) 12
          (layerDistance measure km)) := by
  have h12 : layerDistance measure ka = 12 := by
    show pyRound (convertToKm (layerSum measure ka)) = 12
    rw [h]; norm_num [pyRound, convertToKm]
  have hs : toString (12 : ℤ) = "12" := by decide
  refine ⟨by rw [h]; norm_num [convertToKm], h12, ?_, ?_⟩
  · rw [dataRows, h12, hs]
  · rw [← h12]; rfl

theorem convertRoundVerbatimWitness :
    convertToKm (layerSum (fun _ : Unit => (123456 : ℚ) / 10) [()]) = 123456 / 10000
    ∧ layerDistance (fun _ : Unit => (123456 : ℚ) / 10) [()] = 12
    ∧ dataRows "France" (layerDistance (fun _ : Unit => (123456 : ℚ) / 10) [])
        (layerDistance (fun _ : Unit => (123456 : ℚ) / 10) [])
        (layerDistance (fun _ : Unit => (123456 : ℚ) / 10) [()])
        (layerDistance (fun _ : Unit => (123456 : ℚ) / 10) [])
      = [["France", "Km of road added", "12",
            toString (layerDistance (fun _ : Unit => (123456 : ℚ) / 10) [])],
         ["France", "Km of road edited or modified",
            toString (layerDistance (fun _ : Unit => (123456 : ℚ) / 10) []),
            toString (layerDistance (fun _ : Unit => (123456 : ℚ) / 10) [])]]
    ∧ (processAlgorithm (fun _ : Unit => (123456 : ℚ) / 10)
        ⟨some [], some [], some [()], some []⟩ "France" "out.csv" "").fileContent
      = "" ++ csvRows (rowsToWrite (String.length "") "France"
          (layerDistance (fun _ : Unit => (123456 : ℚ) / 10) [])
          (layerDistance (fun _ : Unit => (123456 : ℚ) / 10) []) 12
          (layerDistance (fun _ : Unit => (123456 : ℚ) / 10) [])) :=
  convertRoundVerbatim (fun _ : Unit => (123456 : ℚ) / 10) [] [] [()] []
    "France" "out.csv" "" (by simp [layerSum])

/-- Claim C9: when all four sources resolve, the invocation returns
normally with the output file path. -/
theorem successReturnsOutputPath {G : Type} (measure : G → ℚ)
    (ta tm ka km : List G) (country destPath init : String) :
    (processAlgorithm measure ⟨some ta, some tm, some ka, some km⟩
        country destPath init).result = RunResult.ok destPath := rfl

/-- Claim C10: the procedure is deterministic in its resolved inputs — two
runs whose layers carry the same per-feature measured lengths in the same
iteration order, with the same country name and the same initial file
content, append identical bytes and return the same result. -/
theorem deterministicOutput {G₁ G₂ : Type} (m₁ : G₁ → ℚ) (m₂ : G₂ → ℚ)
    (ta₁ tm₁ ka₁ km₁ : List G₁) (ta₂ tm₂ ka₂ km₂ : List G₂)
    (country destPath init : String)
    (hta : ta₁.map m₁ = ta₂.map m₂) (htm : tm₁.map m₁ = tm₂.map m₂)
    (hka : ka₁.map m₁ = ka₂.map m₂) (hkm : km₁.map m₁ = km₂.map m₂) :
    (processAlgorithm m₁ ⟨some ta₁, some tm₁, some ka₁, some km₁⟩
        country destPath init).fileContent
      = (processAlgorithm m₂ ⟨some ta₂, some tm₂, some ka₂, some km₂⟩
        country destPath init).fileContent
    ∧ (processAlgorithm m₁ ⟨some ta₁, some tm₁, some ka₁, some km₁⟩
        country destPath init).result
      = (processAlgorithm m₂ ⟨some ta₂, some tm₂, some ka₂, some km₂⟩
        country destPath init).result := by
  constructor <;> simp [processAlgorithm, layerDistance, layerSum, hta, htm, hka, hkm]

theorem deterministicOutputWitness :
    (processAlgorithm (fun _ : Unit => (1 : ℚ))
        ⟨some [()], some [], some [], some []⟩ "France" "out.csv" "").fileContent
      = (processAlgorithm (fun _ : Bool => (1 : ℚ))
        ⟨some [true], some [], some [], some []⟩ "France" "out.csv" "").fileContent
    ∧ (processAlgorithm (fun _ : Unit => (1 : ℚ))
        ⟨some [()], some [], some [], some []⟩ "France" "out.csv" "").result
      = (processAlgorithm (fun _ : Bool => (1 : ℚ))
        ⟨some [true], some [], some [], some []⟩ "France" "out.csv" "").result :=
  deterministicOutput (fun _ : Unit => (1 : ℚ)) (fun _ : Bool => (1 : ℚ))
    [()] [] [] [] [true] [] [] [] "France" "out.csv" "" rfl rfl rfl rfl

end AppendLengthToCSV
